import Mathlib

/-!
Verification model of the cursor-active-users-bot repository: the inactivity
classification logic, the activity-window calculator, the Slack notification
layer and the lambda handler's email-based deduplication, embedded as Lean
functions, with theorems settling the specification's testable properties.
-/

/-- A licensed user as used by the classifiers and the Slack layer
(the source's User and InactiveUser interfaces both carry exactly an
email and a name). -/
structure User where
  email : String
  name : String
deriving DecidableEq

/-- One daily usage observation (DailyUsageData in cursor-admin-api).
Only the fields consulted by the embedded logic are modelled: the many
numeric counters of the source interface are never read by
findInactiveUsers or categorizeInactiveUsers.  The optional email field
is a JS value whose falsy cases (undefined and the empty string) are
modelled by none and some "". -/
structure DailyUsageData where
  date : Int
  isActive : Bool
  email : Option String
deriving DecidableEq

/-- JS Set.add on a set represented as an insertion-ordered duplicate-free
list. -/
def setAdd (s : List String) (x : String) : List String :=
  if x ∈ s then s else s ++ [x]

/-- Body of the loop of findInactiveUsers: an entry contributes its email
to the active set only when the email is truthy (present and non-empty)
and the isActive flag is set, mirroring
if (usageEntry.email && usageEntry.isActive). -/
def activeEmailStep (s : List String) (e : DailyUsageData) : List String :=
  match e.email with
  | some em => if em ≠ "" ∧ e.isActive = true then setAdd s em else s
  | none => s

/-- The set of active-user emails built by the first loop of
findInactiveUsers (identical in cursor-operations.ts and
inactive-users-analyzer.ts). -/
def activeUserEmails (usageDataEntries : List DailyUsageData) : List String :=
  usageDataEntries.foldl activeEmailStep []

/-- findInactiveUsers from cursor-operations.ts / inactive-users-analyzer.ts:
members with no active usage entry, projected to email and name. -/
def findInactiveUsers (members : List User) (usageDataEntries : List DailyUsageData) : List User :=
  (members.filter (fun member => !(activeUserEmails usageDataEntries).contains member.email)).map
    (fun member => { email := member.email, name := member.name })

/-- Result shape of both classifiers. -/
structure CategorizedInactiveUsers where
  usersToNotify : List User
  usersToRemove : List User
deriving DecidableEq

namespace CursorOperations

/-- CursorOperations.categorizeInactiveUsers (cursor-operations.ts):
computes both inactive lists and filters the removal candidates out of the
notification list. -/
def categorizeInactiveUsers (members : List User)
    (notifyPeriodUsage removePeriodUsage : List DailyUsageData) : CategorizedInactiveUsers :=
  let usersToRemove := findInactiveUsers members removePeriodUsage
  let usersToNotify := findInactiveUsers members notifyPeriodUsage
  let removeEmails := usersToRemove.map (fun user => user.email)
  let filteredUsersToNotify := usersToNotify.filter (fun user => !removeEmails.contains user.email)
  { usersToNotify := filteredUsersToNotify, usersToRemove := usersToRemove }

end CursorOperations

namespace InactiveUsersAnalyzer

/-- categorizeInactiveUsers from inactive-users-analyzer.ts: the source
computes both inactive lists, then discards them (a section marked with
the comment "testing" in the source) and returns a fixed record naming
one hard-coded user in both lists. -/
def categorizeInactiveUsers (members : List User)
    (notifyPeriodUsage removePeriodUsage : List DailyUsageData) : CategorizedInactiveUsers :=
  let _usersToNotify := findInactiveUsers members notifyPeriodUsage
  let _usersToRemove := findInactiveUsers members removePeriodUsage
  { usersToNotify := [{ email := "pekka.kokkonen@gofore.com", name := "Pekka Kokkonen" }],
    usersToRemove := [{ email := "pekka.kokkonen@gofore.com", name := "Pekka Kokkonen" }] }

end InactiveUsersAnalyzer

/-- The date range returned by getUsageDataDateRange. -/
structure DateRangeInfo where
  startDateEpochMs : Int
  endDateEpochMs : Int
deriving DecidableEq

/-- Milliseconds in one day. -/
def msPerDay : Int := 86400000

/-- A JS Date as used by getUsageDataDateRange, in a fixed-offset (no DST)
timezone: the absolute day number is monthStartDay + dateOfMonth - 1,
where monthStartDay is the day number of the first day of the current
month and dateOfMonth the 1-based day of month.  JS MakeDay accepts any
integer day-of-month and normalizes it through the calendar, so getTime
is defined for every integer dateOfMonth. -/
structure JsDate where
  monthStartDay : Int
  dateOfMonth : Int
  msOfDay : Int
deriving DecidableEq

/-- Date.prototype.getDate. -/
def JsDate.getDate (d : JsDate) : Int := d.dateOfMonth

/-- Date.prototype.setDate with MakeDay normalization of out-of-range
day-of-month values. -/
def JsDate.setDate (d : JsDate) (n : Int) : JsDate := { d with dateOfMonth := n }

/-- Date.prototype.getTime: epoch milliseconds of the date. -/
def JsDate.getTime (d : JsDate) : Int :=
  (d.monthStartDay + d.dateOfMonth - 1) * msPerDay + d.msOfDay

/-- getUsageDataDateRange from utils/dates.ts (also duplicated in
inactive-users-analyzer.ts): both Date constructors sample the wall
clock; the two samples are modelled by the single instant now (the
source's two samples coincide at millisecond granularity).  The function
performs no validation of daysBack. -/
def getUsageDataDateRange (now : JsDate) (daysBack : Int) : DateRangeInfo :=
  let startDate := now.setDate (now.getDate - daysBack)
  let endDate := now
  { startDateEpochMs := startDate.getTime, endDateEpochMs := endDate.getTime }

/-- A chat-API call issued against the Slack client, used to record which
network operations a method performs. -/
inductive SlackCall where
  | lookupByEmail (email : String)
  | postMessage (channel : String) (text : String)
deriving DecidableEq

/-- The profile object of a Slack user response; its email field is
optional. -/
structure SlackProfile where
  email : Option String
deriving DecidableEq

/-- The user object of a users.lookupByEmail response; every field read by
the source is optional there. -/
structure SlackUser where
  id : Option String
  real_name : Option String
  profile : Option SlackProfile
deriving DecidableEq

/-- An opaque error value thrown by the Slack client (transport failure,
user-not-found rejection, ...). -/
structure SlackError where
  message : String
deriving DecidableEq

/-- The behaviour of the Slack web client during one run: what
users.lookupByEmail and chat.postMessage resolve or reject with.  A
lookup resolves with a response whose user field is optional, or rejects
with an error. -/
structure SlackEnv where
  lookupByEmail : String → Except SlackError (Option SlackUser)
  postMessage : String → String → Except SlackError Unit

/-- The per-user line built by sendRemovalCandidatesNotification: looks
the user up by email, falls back to name and email from the roster when
the lookup rejects, and appends a mention when a truthy (non-empty) id is
present.  Returns the line together with the chat-API calls issued. -/
def removalCandidateLine (env : SlackEnv) (user : User) : String × List SlackCall :=
  match env.lookupByEmail user.email with
  | Except.error _ =>
      ("- " ++ user.name ++ " (" ++ user.email ++ ")", [SlackCall.lookupByEmail user.email])
  | Except.ok resp =>
      let username := (resp.bind (fun su => su.real_name)).getD user.name
      let email := (resp.bind (fun su => su.profile.bind (fun p => p.email))).getD user.email
      let userId := resp.bind (fun su => su.id)
      (match userId with
       | some uid =>
           if uid = "" then "- " ++ username ++ " (" ++ email ++ ")"
           else "- " ++ username ++ " (" ++ email ++ ", <@" ++ uid ++ ">)"
       | none => "- " ++ username ++ " (" ++ email ++ ")",
       [SlackCall.lookupByEmail user.email])

namespace ApisSlackApi

/-- The SlackApi of apis/slack-api.ts, holding the kill-switch flag set by
the constructor (the App client is only constructed when enabled). -/
structure Api where
  enabled : Bool
deriving DecidableEq

/-- sendInactivityWarningDM from apis/slack-api.ts: returns false without
any chat-API call when notifications are disabled; otherwise looks the
user up, returns false when the lookup rejects or yields no id, posts the
warning, and returns false instead of raising when the post rejects.
The result is paired with the list of chat-API calls issued. -/
def sendInactivityWarningDM (api : Api) (env : SlackEnv)
    (userEmail : String) (inactiveDays : Int) (appName : String) : Bool × List SlackCall :=
  if !api.enabled then
    (false, [])
  else
    match env.lookupByEmail userEmail with
    | Except.error _ => (false, [SlackCall.lookupByEmail userEmail])
    | Except.ok resp =>
      match resp.bind (fun su => su.id) with
      | none => (false, [SlackCall.lookupByEmail userEmail])
      | some uid =>
        if uid = "" then
          (false, [SlackCall.lookupByEmail userEmail])
        else
          let messageText := "You haven\x27t used " ++ appName ++ " for " ++ toString inactiveDays ++
            " days. If you are planning to not use the app, please inform IT so we can remove the license."
          match env.postMessage uid messageText with
          | Except.ok _ =>
              (true, [SlackCall.lookupByEmail userEmail, SlackCall.postMessage uid messageText])
          | Except.error _ =>
              (false, [SlackCall.lookupByEmail userEmail, SlackCall.postMessage uid messageText])

/-- sendRemovalCandidatesNotification from apis/slack-api.ts: returns
false without any chat-API call when notifications are disabled, when no
recipient is given or when the removal list is empty; otherwise builds
one line per user, posts the rollup, and returns false instead of raising
when the post rejects. -/
def sendRemovalCandidatesNotification (api : Api) (env : SlackEnv)
    (recipientUserId : String) (usersToRemove : List User) (inactiveDays : Int)
    (appName : String) : Bool × List SlackCall :=
  if !api.enabled then
    (false, [])
  else if recipientUserId = "" then
    (false, [])
  else if usersToRemove.length = 0 then
    (false, [])
  else
    let linePairs := usersToRemove.map (removalCandidateLine env)
    let calls := linePairs.foldl (fun acc p => acc ++ p.2) []
    let messageText := appName ++ " license removal candidates (no activity for " ++
      toString inactiveDays ++ "+ days):\n" ++ String.intercalate "\n" (linePairs.map Prod.fst)
    match env.postMessage recipientUserId messageText with
    | Except.ok _ => (true, calls ++ [SlackCall.postMessage recipientUserId messageText])
    | Except.error _ => (false, calls ++ [SlackCall.postMessage recipientUserId messageText])

end ApisSlackApi

namespace ServicesSlackApi

/-- sendRemovalCandidatesNotification from services/slack-api.ts: a void
method that logs and returns when the removal list is empty, builds one
line per user, and rethrows the chat.postMessage error when the final
send rejects.  The outcome (normal return or raised error) is paired with
the chat-API calls issued. -/
def sendRemovalCandidatesNotification (env : SlackEnv)
    (recipientUserId : String) (usersToRemove : List User) (inactiveDays : Int) :
    Except SlackError Unit × List SlackCall :=
  if usersToRemove.length = 0 then
    (Except.ok (), [])
  else
    let linePairs := usersToRemove.map (removalCandidateLine env)
    let calls := linePairs.foldl (fun acc p => acc ++ p.2) []
    let messageText := "Cursor license removal candidates (no activity for " ++
      toString inactiveDays ++ "+ days):\n" ++ String.intercalate "\n" (linePairs.map Prod.fst)
    match env.postMessage recipientUserId messageText with
    | Except.ok _ => (Except.ok (), calls ++ [SlackCall.postMessage recipientUserId messageText])
    | Except.error e => (Except.error e, calls ++ [SlackCall.postMessage recipientUserId messageText])

end ServicesSlackApi

/-- One step of JS Map.prototype.set on a map represented as an
insertion-ordered association list: an existing key keeps its position
and has its value replaced; a new key is appended. -/
def mapSet (m : List (String × User)) (k : String) (v : User) : List (String × User) :=
  if m.any (fun p => p.1 == k) then
    m.map (fun p => if p.1 == k then (k, v) else p)
  else
    m ++ [(k, v)]

/-- new Map(pairs): inserts the pairs left to right with Map.set
semantics. -/
def mapFromPairs (pairs : List (String × User)) : List (String × User) :=
  pairs.foldl (fun m p => mapSet m p.1 p.2) []

/-- The lambda handler's deduplication of a user list:
Array.from(new Map(users.map(user => [user.email, user])).values()). -/
def dedupByEmail (users : List User) : List User :=
  (mapFromPairs (users.map (fun user => (user.email, user)))).map Prod.snd

/-- The merge performed by the lambda handler over the enabled vendors:
the per-vendor usersToNotify lists are concatenated and deduplicated by
email, and likewise, independently, the usersToRemove lists. -/
def mergeVendorResults (results : List CategorizedInactiveUsers) : CategorizedInactiveUsers :=
  let allUsersToNotify := results.foldl (fun acc r => acc ++ r.usersToNotify) []
  let allUsersToRemove := results.foldl (fun acc r => acc ++ r.usersToRemove) []
  { usersToNotify := dedupByEmail allUsersToNotify,
    usersToRemove := dedupByEmail allUsersToRemove }

/-- assignee of a Copilot seat (GitHubUser in github-api): only the fields
read by the embedded logic are modelled; the email is optional. -/
structure GitHubUser where
  login : String
  email : Option String
deriving DecidableEq

/-- A GitHub Copilot seat: last_activity_at is a nullable timestamp,
modelled as the epoch milliseconds of the parsed date, none when the
field is null or missing. -/
structure GitHubCopilotSeat where
  last_activity_at : Option Int
  assignee : GitHubUser
deriving DecidableEq

/-- The arrow function GitHubOperations.findInactiveUsers maps over the
filtered seats: the email falls back to login followed by the literal
suffix when the assignee email is absent or empty (JS falsy), and the
name is the GitHub login. -/
def seatToInactiveUser (seat : GitHubCopilotSeat) : User :=
  { email := match seat.assignee.email with
             | some e => if e = "" then seat.assignee.login ++ "@github.local" else e
             | none => seat.assignee.login ++ "@github.local",
    name := seat.assignee.login }

namespace GitHubOperations

/-- GitHubOperations.findInactiveUsers: keeps the seats with no last
activity or with a last activity strictly before the cutoff, and maps
them to users. -/
def findInactiveUsers (seats : List GitHubCopilotSeat) (cutoffDateEpochMs : Int) : List User :=
  (seats.filter (fun seat =>
      match seat.last_activity_at with
      | none => true
      | some lastActivity => decide (lastActivity < cutoffDateEpochMs))).map
    seatToInactiveUser

end GitHubOperations

example :
    (CursorOperations.categorizeInactiveUsers
      [{ email := "john@x.com", name := "John" }, { email := "jane@x.com", name := "Jane" }]
      [{ date := 0, isActive := true, email := some "john@x.com" }]
      [{ date := 0, isActive := true, email := some "john@x.com" },
       { date := 0, isActive := true, email := some "jane@x.com" }]) =
    { usersToNotify := [{ email := "jane@x.com", name := "Jane" }], usersToRemove := [] } := by
  decide

/-! ## Helper lemmas -/

theorem list_map_id_of_eq {α : Type} (l : List α) (f : α → α) (h : ∀ a ∈ l, f a = a) :
    l.map f = l := by
  induction l with
  | nil => rfl
  | cons a t ih =>
      simp only [List.map_cons, h a (List.mem_cons_self a t)]
      rw [ih (fun b hb => h b (List.mem_cons_of_mem a hb))]

theorem findInactiveUsers_of_no_active (members : List User) (entries : List DailyUsageData)
    (h : activeUserEmails entries = []) : findInactiveUsers members entries = members := by
  unfold findInactiveUsers
  rw [h]
  have hfilter : members.filter
      (fun member => !(([] : List String).contains member.email)) = members := by
    induction members with
    | nil => rfl
    | cons m t ih => simp only [List.filter_cons, ih]; rfl
  rw [hfilter]
  exact list_map_id_of_eq members _ (fun a _ => rfl)

theorem filter_not_own_email (l : List User) :
    l.filter (fun user => !((l.map (fun user => user.email)).contains user.email)) = [] := by
  rw [List.filter_eq_nil_iff]
  intro u hu
  have hmem : u.email ∈ l.map (fun user => user.email) := List.mem_map_of_mem _ hu
  simp [List.contains, hmem]

/-! ## Claim theorems: the inactivity classifiers -/

/-- C1 (code bug): the removal-precedence invariant fails in the source at
concrete inputs.  First, the categorizeInactiveUsers of
inactive-users-analyzer.ts returns its hard-coded record for every input
(here the empty roster with empty usage data), and the hard-coded email
appears in usersToRemove and in usersToNotify at once.  Second, the
lambda handler's merge deduplicates the two lists independently, so an
email contributed to usersToNotify by one vendor and to usersToRemove by
another appears in both merged lists. -/
theorem removal_precedence_violations :
    ("pekka.kokkonen@gofore.com" ∈
        ((InactiveUsersAnalyzer.categorizeInactiveUsers [] [] []).usersToRemove.map
          (fun user => user.email)) ∧
      "pekka.kokkonen@gofore.com" ∈
        ((InactiveUsersAnalyzer.categorizeInactiveUsers [] [] []).usersToNotify.map
          (fun user => user.email))) ∧
    ("a@x.com" ∈
        ((mergeVendorResults
          [{ usersToNotify := [{ email := "a@x.com", name := "A" }], usersToRemove := [] },
           { usersToNotify := [], usersToRemove := [{ email := "a@x.com", name := "A" }] }]).usersToRemove.map
          (fun user => user.email)) ∧
      "a@x.com" ∈
        ((mergeVendorResults
          [{ usersToNotify := [{ email := "a@x.com", name := "A" }], usersToRemove := [] },
           { usersToNotify := [], usersToRemove := [{ email := "a@x.com", name := "A" }] }]).usersToNotify.map
          (fun user => user.email))) := by
  decide

/-- C2 counterexample: with empty usage data for both windows, the
CursorOperations classifier does not return the roster as usersToNotify
(removal precedence empties the notification list), refuting the claim
that both output lists equal the full roster. -/
theorem classify_empty_windows_counterexample :
    (CursorOperations.categorizeInactiveUsers
        [{ email := "john@x.com", name := "John" }] [] []).usersToNotify ≠
      [{ email := "john@x.com", name := "John" }] := by
  decide

/-- C2 (amended): for every roster, the CursorOperations classifier with
empty notify-window and empty remove-window records marks every roster
member as a removal candidate and, by removal precedence, leaves the
notification list empty. -/
theorem classify_empty_windows (members : List User) :
    CursorOperations.categorizeInactiveUsers members [] [] =
      { usersToNotify := [], usersToRemove := members } := by
  unfold CursorOperations.categorizeInactiveUsers
  rw [findInactiveUsers_of_no_active members [] rfl]
  exact congrArg (fun l => CategorizedInactiveUsers.mk l members) (filter_not_own_email members)

/-! ## Claim theorems: the activity-window calculator -/

/-- C3: for every instant and every non-negative integer daysBack,
getUsageDataDateRange returns the current time as endDateEpochMs and a
startDateEpochMs exactly daysBack days (in milliseconds) earlier. -/
theorem window_formula_from_now (now : JsDate) (daysBack : Int) (h : 0 ≤ daysBack) :
    (getUsageDataDateRange now daysBack).endDateEpochMs = now.getTime ∧
    (getUsageDataDateRange now daysBack).startDateEpochMs =
      (getUsageDataDateRange now daysBack).endDateEpochMs - daysBack * 86400000 := by
  refine ⟨rfl, ?_⟩
  simp only [getUsageDataDateRange, JsDate.getTime, JsDate.setDate, JsDate.getDate, msPerDay]
  ring

/-- Witness for C3 at a concrete instant and daysBack = 7. -/
theorem window_formula_from_now_witness :
    0 ≤ (7 : Int) ∧
    ((getUsageDataDateRange ⟨20000, 15, 3600000⟩ 7).endDateEpochMs =
        JsDate.getTime ⟨20000, 15, 3600000⟩ ∧
      (getUsageDataDateRange ⟨20000, 15, 3600000⟩ 7).startDateEpochMs =
        (getUsageDataDateRange ⟨20000, 15, 3600000⟩ 7).endDateEpochMs - 7 * 86400000) :=
  ⟨by decide, window_formula_from_now ⟨20000, 15, 3600000⟩ 7 (by decide)⟩

/-- C4 counterexample: at a negative daysBack the function does not fail:
it returns an ordinary range (one that extends one day into the future),
refuting the claim that negative inputs are rejected with a ConfigError.
The source performs no validation of daysBack at all. -/
theorem negative_days_returns_range :
    getUsageDataDateRange ⟨20000, 15, 3600000⟩ (-1) =
      { startDateEpochMs := 1729299600000, endDateEpochMs := 1729213200000 } := by
  decide

/-- C4 (amended): getUsageDataDateRange performs no input validation: for
every negative integer daysBack it still returns a range, obeying the
same arithmetic as for non-negative inputs, with a start later than the
end (the window points into the future) rather than failing. -/
theorem no_validation_on_negative_days (now : JsDate) (daysBack : Int) (h : daysBack < 0) :
    (getUsageDataDateRange now daysBack).startDateEpochMs =
      (getUsageDataDateRange now daysBack).endDateEpochMs - daysBack * 86400000 ∧
    (getUsageDataDateRange now daysBack).endDateEpochMs <
      (getUsageDataDateRange now daysBack).startDateEpochMs := by
  constructor
  · simp only [getUsageDataDateRange, JsDate.getTime, JsDate.setDate, JsDate.getDate, msPerDay]
    ring
  · simp only [getUsageDataDateRange, JsDate.getTime, JsDate.setDate, JsDate.getDate, msPerDay]
    nlinarith

/-- Witness for the amended C4 at daysBack = -1. -/
theorem no_validation_on_negative_days_witness :
    (-1 : Int) < 0 ∧
    ((getUsageDataDateRange ⟨20000, 15, 3600000⟩ (-1)).startDateEpochMs =
        (getUsageDataDateRange ⟨20000, 15, 3600000⟩ (-1)).endDateEpochMs - (-1) * 86400000 ∧
      (getUsageDataDateRange ⟨20000, 15, 3600000⟩ (-1)).endDateEpochMs <
        (getUsageDataDateRange ⟨20000, 15, 3600000⟩ (-1)).startDateEpochMs) :=
  ⟨by decide, no_validation_on_negative_days ⟨20000, 15, 3600000⟩ (-1) (by decide)⟩

/-- C8: computed at the same instant, the window for the smaller day
count starts strictly later than the window for the larger day count. -/
theorem window_start_monotone (now : JsDate) (daysBack1 daysBack2 : Int)
    (h1 : 0 ≤ daysBack1) (h2 : daysBack1 < daysBack2) :
    (getUsageDataDateRange now daysBack2).startDateEpochMs <
      (getUsageDataDateRange now daysBack1).startDateEpochMs := by
  simp only [getUsageDataDateRange, JsDate.getTime, JsDate.setDate, JsDate.getDate, msPerDay]
  nlinarith

/-- Witness for C8 at daysBack1 = 60 and daysBack2 = 90. -/
theorem window_start_monotone_witness :
    (0 ≤ (60 : Int) ∧ (60 : Int) < 90) ∧
    (getUsageDataDateRange ⟨20000, 15, 3600000⟩ 90).startDateEpochMs <
      (getUsageDataDateRange ⟨20000, 15, 3600000⟩ 60).startDateEpochMs :=
  ⟨⟨by decide, by decide⟩,
    window_start_monotone ⟨20000, 15, 3600000⟩ 60 90 (by decide) (by decide)⟩

/-! ## Lemmas about the email-keyed deduplication -/

theorem pair_eq_of_nodup_keys (m : List (String × User)) (h : (m.map Prod.fst).Nodup)
    (p q : String × User) (hp : p ∈ m) (hq : q ∈ m) (hk : p.1 = q.1) : p = q := by
  induction m with
  | nil => cases hp
  | cons a t ih =>
      simp only [List.map_cons, List.nodup_cons] at h
      rcases List.mem_cons.mp hp with hpa | hpt <;> rcases List.mem_cons.mp hq with hqa | hqt
      · rw [hpa, hqa]
      · exfalso
        apply h.1
        rw [← hpa, hk]
        exact List.mem_map_of_mem Prod.fst hqt
      · exfalso
        apply h.1
        rw [← hqa, ← hk]
        exact List.mem_map_of_mem Prod.fst hpt
      · exact ih h.2 hpt hqt

theorem mapSet_of_mem (m : List (String × User)) (k : String) (v : User)
    (hnd : (m.map Prod.fst).Nodup) (hmem : (k, v) ∈ m) : mapSet m k v = m := by
  unfold mapSet
  rw [if_pos (List.any_eq_true.mpr ⟨(k, v), hmem, by simp⟩)]
  apply list_map_id_of_eq
  intro p hp
  by_cases hk : p.1 = k
  · have hpe : p = (k, v) := pair_eq_of_nodup_keys m hnd p (k, v) hp hmem (by simpa using hk)
    simp [hpe]
  · simp [hk]

theorem foldl_mapSet_of_mem (ps : List (String × User)) :
    ∀ m : List (String × User), (m.map Prod.fst).Nodup → (∀ p ∈ ps, p ∈ m) →
      ps.foldl (fun acc p => mapSet acc p.1 p.2) m = m := by
  induction ps with
  | nil => intro m _ _; rfl
  | cons a t ih =>
      intro m hnd hsub
      have ha : (a.1, a.2) ∈ m := hsub a (List.mem_cons_self a t)
      rw [List.foldl_cons, mapSet_of_mem m a.1 a.2 hnd ha]
      exact ih m hnd (fun p hp => hsub p (List.mem_cons_of_mem a hp))

theorem mapSet_of_not_mem (m : List (String × User)) (k : String) (v : User)
    (hk : k ∉ m.map Prod.fst) : mapSet m k v = m ++ [(k, v)] := by
  unfold mapSet
  rw [if_neg]
  intro hany
  obtain ⟨p, hp, hpk⟩ := List.any_eq_true.mp hany
  exact hk (by rw [← show p.1 = k from by simpa using hpk]; exact List.mem_map_of_mem Prod.fst hp)

theorem foldl_mapSet_fresh (ps : List (String × User)) :
    ∀ m : List (String × User), (ps.map Prod.fst).Nodup →
      (∀ k ∈ ps.map Prod.fst, k ∉ m.map Prod.fst) →
      ps.foldl (fun acc p => mapSet acc p.1 p.2) m = m ++ ps := by
  induction ps with
  | nil => intro m _ _; simp
  | cons a t ih =>
      intro m hnd hdis
      simp only [List.map_cons, List.nodup_cons] at hnd
      rw [List.foldl_cons,
        mapSet_of_not_mem m a.1 a.2 (hdis a.1 (by simp)),
        ih (m ++ [(a.1, a.2)]) hnd.2]
      · simp
      · intro k hk
        rw [List.map_append]
        intro hmem
        rcases List.mem_append.mp hmem with hm | hsingle
        · exact hdis k (List.mem_cons_of_mem a.1 hk) hm
        · apply hnd.1
          have : k = a.1 := by simpa using hsingle
          rw [← this]; exact hk

theorem dedupByEmail_self_append (l : List User)
    (h : (l.map (fun user => user.email)).Nodup) : dedupByEmail (l ++ l) = l := by
  unfold dedupByEmail mapFromPairs
  have hkeys : (l.map (fun user => (user.email, user))).map Prod.fst =
      l.map (fun user => user.email) := by
    rw [List.map_map]; rfl
  rw [List.map_append, List.foldl_append,
    foldl_mapSet_fresh _ [] (by rw [hkeys]; exact h) (by intro k _ hk; cases hk),
    List.nil_append,
    foldl_mapSet_of_mem _ _ (by rw [hkeys]; exact h) (fun p hp => hp),
    List.map_map]
  exact list_map_id_of_eq l _ (fun a _ => rfl)

/-- C7: merging a vendor classification result, whose two lists are
already free of duplicate emails, with an identical copy of itself
through the lambda handler's email-keyed deduplication returns exactly
the original result. -/
theorem dedup_merge_self_idempotent (r : CategorizedInactiveUsers)
    (h1 : (r.usersToNotify.map (fun user => user.email)).Nodup)
    (h2 : (r.usersToRemove.map (fun user => user.email)).Nodup) :
    mergeVendorResults [r, r] = r := by
  unfold mergeVendorResults
  simp only [List.foldl_cons, List.foldl_nil, List.nil_append]
  rw [dedupByEmail_self_append _ h1, dedupByEmail_self_append _ h2]

/-- Witness for C7 on a concrete two-user result. -/
theorem dedup_merge_self_idempotent_witness :
    ((([{ email := "a@x.com", name := "A" }] : List User).map (fun user => user.email)).Nodup ∧
      (([{ email := "b@x.com", name := "B" }] : List User).map (fun user => user.email)).Nodup) ∧
    mergeVendorResults
        [{ usersToNotify := [{ email := "a@x.com", name := "A" }],
           usersToRemove := [{ email := "b@x.com", name := "B" }] },
         { usersToNotify := [{ email := "a@x.com", name := "A" }],
           usersToRemove := [{ email := "b@x.com", name := "B" }] }] =
      { usersToNotify := [{ email := "a@x.com", name := "A" }],
        usersToRemove := [{ email := "b@x.com", name := "B" }] } :=
  ⟨⟨by decide, by decide⟩,
    dedup_merge_self_idempotent
      { usersToNotify := [{ email := "a@x.com", name := "A" }],
        usersToRemove := [{ email := "b@x.com", name := "B" }] }
      (by decide) (by decide)⟩

/-! ## Claim theorems: the Slack notification layer -/

/-- A Slack client behaviour in which every lookup and every message post
rejects with an error (a transport failure for the posts). -/
def failingSlackEnv : SlackEnv :=
  { lookupByEmail := fun _ => Except.error { message := "lookup failed" },
    postMessage := fun _ _ => Except.error { message := "transport" } }

/-- C5 counterexample: in apis/slack-api.ts, when the final chat post of
the administrator rollup rejects, sendRemovalCandidatesNotification does
not raise: it returns normally with false, after having attempted the
lookup and the post (the recorded call trace), refuting the claim for
that implementation. -/
theorem apis_removal_report_returns_false :
    ApisSlackApi.sendRemovalCandidatesNotification { enabled := true } failingSlackEnv "U9"
        [{ email := "john@x.com", name := "John" }] 90 "Cursor" =
      (false,
        [SlackCall.lookupByEmail "john@x.com",
         SlackCall.postMessage "U9"
           ("Cursor license removal candidates (no activity for 90+ days):\n- John (john@x.com)")]) := by
  decide

/-- C5 (amended): in the services/slack-api.ts implementation, for every
non-empty removal list, when the final chat post rejects with an error
the method rethrows that same error to its caller instead of returning
normally. -/
theorem services_removal_report_raises (env : SlackEnv) (recipientUserId : String)
    (usersToRemove : List User) (inactiveDays : Int) (err : SlackError)
    (hne : usersToRemove ≠ [])
    (hpost : ∀ channel text, env.postMessage channel text = Except.error err) :
    (ServicesSlackApi.sendRemovalCandidatesNotification env recipientUserId usersToRemove
        inactiveDays).1 = Except.error err := by
  unfold ServicesSlackApi.sendRemovalCandidatesNotification
  rw [if_neg (by simpa [List.length_eq_zero] using hne)]
  simp [hpost]

/-- Witness for the amended C5 with one removal candidate and an
always-failing chat client. -/
theorem services_removal_report_raises_witness :
    (([{ email := "john@x.com", name := "John" }] : List User) ≠ [] ∧
      (∀ channel text, failingSlackEnv.postMessage channel text =
        Except.error { message := "transport" })) ∧
    (ServicesSlackApi.sendRemovalCandidatesNotification failingSlackEnv "U9"
        [{ email := "john@x.com", name := "John" }] 90).1 =
      Except.error { message := "transport" } :=
  ⟨⟨by decide, fun _ _ => rfl⟩,
    services_removal_report_raises failingSlackEnv "U9"
      [{ email := "john@x.com", name := "John" }] 90 { message := "transport" }
      (by decide) (fun _ _ => rfl)⟩

/-- C6: with the kill-switch off (the dispatcher constructed with
enabled = false), sendInactivityWarningDM and
sendRemovalCandidatesNotification of apis/slack-api.ts issue no chat-API
call at all — no lookup, no message post — and return false, for every
client behaviour and every argument. -/
theorem disabled_api_no_calls (env : SlackEnv) (userEmail : String) (dmInactiveDays : Int)
    (dmAppName : String) (recipientUserId : String) (usersToRemove : List User)
    (reportInactiveDays : Int) (reportAppName : String) :
    ApisSlackApi.sendInactivityWarningDM { enabled := false } env userEmail dmInactiveDays
        dmAppName = (false, []) ∧
    ApisSlackApi.sendRemovalCandidatesNotification { enabled := false } env recipientUserId
        usersToRemove reportInactiveDays reportAppName = (false, []) :=
  ⟨rfl, rfl⟩

/-! ## Claim theorems: usage entries without an email -/

theorem activeEmailStep_blank (s : List String) (e : DailyUsageData)
    (h : e.email = none ∨ e.email = some "") : activeEmailStep s e = s := by
  rcases h with h | h <;> simp [activeEmailStep, h]

theorem not_mem_foldl_activeEmailStep (entries : List DailyUsageData) (x : String)
    (hent : ∀ e ∈ entries, e.email ≠ some x) :
    ∀ s : List String, x ∉ s → x ∉ entries.foldl activeEmailStep s := by
  induction entries with
  | nil => intro s hs; exact hs
  | cons e t ih =>
      intro s hs
      rw [List.foldl_cons]
      apply ih (fun a ha => hent a (List.mem_cons_of_mem e ha))
      cases he : e.email with
      | none => simpa [activeEmailStep, he] using hs
      | some em =>
          by_cases hcond : em ≠ "" ∧ e.isActive = true
          · have hne : em ≠ x := fun hemx =>
              hent e (List.mem_cons_self e t) (by rw [he, hemx])
            simp only [activeEmailStep, he, if_pos hcond, setAdd]
            by_cases hmem : em ∈ s
            · simpa [hmem] using hs
            · rw [if_neg hmem]
              intro hx
              rcases List.mem_append.mp hx with hx | hx
              · exact hs hx
              · exact hne (List.mem_singleton.mp hx).symm
          · simpa [activeEmailStep, he, if_neg hcond] using hs

theorem not_active_of_no_entry (entries : List DailyUsageData) (x : String)
    (hent : ∀ e ∈ entries, e.email ≠ some x) : x ∉ activeUserEmails entries :=
  not_mem_foldl_activeEmailStep entries x hent [] (by simp)

/-- C9: a usage entry whose email is absent or empty contributes nothing
to the active-email set even when its isActive flag is true (dropping it
from the entry list leaves the set unchanged); consequently a roster
member none of whose entries in the usage list carries that member's
email — in particular a member all of whose activity records lack an
email, whatever the other members' records contain — is classified
inactive for that window. -/
theorem blank_email_entries_inactive :
    (∀ (l1 l2 : List DailyUsageData) (e : DailyUsageData),
        e.email = none ∨ e.email = some "" →
        activeUserEmails (l1 ++ e :: l2) = activeUserEmails (l1 ++ l2)) ∧
    (∀ (members : List User) (entries : List DailyUsageData) (m : User),
        m ∈ members → (∀ e ∈ entries, e.email ≠ some m.email) →
        ({ email := m.email, name := m.name } : User) ∈ findInactiveUsers members entries) := by
  constructor
  · intro l1 l2 e h
    unfold activeUserEmails
    rw [List.foldl_append, List.foldl_append, List.foldl_cons,
      activeEmailStep_blank _ e h]
  · intro members entries m hm hent
    unfold findInactiveUsers
    apply List.mem_map_of_mem
    rw [List.mem_filter]
    refine ⟨hm, ?_⟩
    have hx : m.email ∉ activeUserEmails entries := not_active_of_no_entry entries m.email hent
    simp [List.contains, hx]

/-- Witness for C9: an isActive entry with a missing email changes
nothing, and a member whose own records are email-less is reported
inactive even though another member's email-bearing active record is
present in the same window. -/
theorem blank_email_entries_inactive_witness :
    activeUserEmails [{ date := 0, isActive := true, email := none }] = activeUserEmails [] ∧
    ({ email := "a@x.com", name := "A" } : User) ∈
      findInactiveUsers
        [{ email := "a@x.com", name := "A" }, { email := "b@x.com", name := "B" }]
        [{ date := 0, isActive := true, email := some "b@x.com" },
         { date := 0, isActive := true, email := some "" }] :=
  ⟨blank_email_entries_inactive.1 [] [] { date := 0, isActive := true, email := none }
      (Or.inl rfl),
    blank_email_entries_inactive.2
      [{ email := "a@x.com", name := "A" }, { email := "b@x.com", name := "B" }]
      [{ date := 0, isActive := true, email := some "b@x.com" },
       { date := 0, isActive := true, email := some "" }]
      { email := "a@x.com", name := "A" }
      (by decide) (by decide)⟩

/-! ## Claim theorems: the GitHub Copilot seat filter -/

/-- C10: every Copilot seat whose last_activity_at is null or missing is
included in the inactive output for every cutoff date, and the user a
seat is mapped to carries the fallback address login followed by the
github.local suffix whenever the assignee has no email. -/
theorem github_missing_activity_and_email_fallback :
    (∀ (seats : List GitHubCopilotSeat) (cutoffDateEpochMs : Int) (seat : GitHubCopilotSeat),
        seat ∈ seats → seat.last_activity_at = none →
        seatToInactiveUser seat ∈ GitHubOperations.findInactiveUsers seats cutoffDateEpochMs) ∧
    (∀ seat : GitHubCopilotSeat, seat.assignee.email = none →
        (seatToInactiveUser seat).email = seat.assignee.login ++ "@github.local") := by
  constructor
  · intro seats cutoff seat hmem hnone
    unfold GitHubOperations.findInactiveUsers
    apply List.mem_map_of_mem
    rw [List.mem_filter]
    exact ⟨hmem, by rw [hnone]⟩
  · intro seat h
    simp [seatToInactiveUser, h]

/-- Witness for C10 on a seat with no activity and no assignee email. -/
theorem github_missing_activity_witness :
    seatToInactiveUser { last_activity_at := none, assignee := { login := "octo", email := none } } ∈
      GitHubOperations.findInactiveUsers
        [{ last_activity_at := none, assignee := { login := "octo", email := none } }] 0 ∧
    (seatToInactiveUser
        { last_activity_at := none, assignee := { login := "octo", email := none } }).email =
      "octo" ++ "@github.local" :=
  ⟨github_missing_activity_and_email_fallback.1
      [{ last_activity_at := none, assignee := { login := "octo", email := none } }] 0
      { last_activity_at := none, assignee := { login := "octo", email := none } }
      (List.mem_singleton.mpr rfl) rfl,
    github_missing_activity_and_email_fallback.2
      { last_activity_at := none, assignee := { login := "octo", email := none } } rfl⟩
